import Mathlib

/-!
Shallow embedding of `src/Sources/RapidFuzz/rapidfuzz.cpp`.

The file is a small C adapter around the rapidfuzz C++ library.  The
underlying similarity algorithms (`rapidfuzz::fuzz::CachedRatio` and
`rapidfuzz::string_metric::normalized_levenshtein`) are external to the
repository, so they are modelled as parameters: a function
`ratio : List Byte → List Byte → ℚ` standing for
`CachedRatio(ref).ratio(candidate)` (the opaque precomputed state is
determined by the bytes of the reference view it was built from), and a
function `nlev : List Byte → List Byte → ℚ` standing for
`normalized_levenshtein(a, b)`.  Both return a similarity percentage.

Byte strings are modelled as `List Nat`; a `string_view(ptr, len)` is
modelled as the list of the `len` bytes it designates.  Scores (C
`double`) are modelled as exact rationals `ℚ`; the adapter's arithmetic
is only `1 - p / 100`.

For the allocation-accounting claims there is a second, heap-instrumented
model in which `malloc` / `operator new` return fresh allocation
identifiers recorded in a heap, `free` removes an identifier, and an
explicit destructor call (`block->~CachedRatio()`) destroys the object
without releasing its storage, exactly as in C++.
-/

namespace RapidFuzz

/-- Bytes of a C string, modelled as natural numbers (0 is NUL). -/
abbrev Byte := Nat

/-- C `strlen`: the number of bytes before the first NUL terminator. -/
def strlen : List Byte → Nat
  | [] => 0
  | b :: rest => if b = 0 then 0 else strlen rest + 1

/-- The `RapidFuzzCachedRatio` struct of `include/rapidfuzz.h`:
`char *buffer` (NULL or the malloc-ed bytes, terminator included),
`size_t buflen`, and `void *block` (NULL or the `CachedRatio` object,
represented by the bytes of the reference view it was built from). -/
structure RapidFuzzCachedRatio where
  buffer : Option (List Byte)
  buflen : Nat
  block : Option (List Byte)
deriving DecidableEq, Repr

/-- `rapidfuzz_cached_null`: cache with all pointers NULL and length 0. -/
def rapidfuzz_cached_null : RapidFuzzCachedRatio :=
  { buffer := none, buflen := 0, block := none }

/-- `rapidfuzz_cached_init(str)`.  `allocOk` is the allocation oracle: it
tells whether the single `malloc` of the function succeeds.  The source
sets `buflen = strlen(str)`, mallocs `buflen + 1` bytes (returning the
null cache if that fails), copies `buflen` bytes, writes a NUL
terminator, and builds the `CachedRatio` block from
`string_view(buffer, buflen)`. -/
def rapidfuzz_cached_init (allocOk : Bool) (str : List Byte) : RapidFuzzCachedRatio :=
  let buflen := strlen str
  if allocOk then
    let copied := str.take buflen
    { buffer := some (copied ++ [0]), buflen := buflen, block := some copied }
  else
    rapidfuzz_cached_null

/-- `rapidfuzz_cached_ratio(cached, str, len)`: returns `1` when
`cached.buffer == NULL || cached.block == NULL`; otherwise computes the
collaborator's score of the cached block against `string_view(str, len)`
(here the candidate view is passed as its byte list) and adapts it as
`1 - score / 100`. -/
def rapidfuzz_cached_ratio (ratio : List Byte → List Byte → ℚ)
    (cached : RapidFuzzCachedRatio) (candidate : List Byte) : ℚ :=
  match cached.buffer, cached.block with
  | some _, some blk =>
      let score := ratio blk candidate
      1 - score / 100
  | _, _ => 1

/-- `rapidfuzz_cached_deinit(cached)`: if the block is non-NULL, runs the
`CachedRatio` destructor and NULLs the pointer; then, if the buffer is
non-NULL, frees it, NULLs it and zeroes `buflen`. -/
def rapidfuzz_cached_deinit (cached : RapidFuzzCachedRatio) : RapidFuzzCachedRatio :=
  let c1 :=
    match cached.block with
    | some _ => { cached with block := none }
    | none => cached
  match c1.buffer with
  | some _ => { c1 with buffer := none, buflen := 0 }
  | none => c1

/-- `rapidfuzz_levenshtein(s1, len1, s2, len2)`: delegates to the
collaborator's `normalized_levenshtein` percentage and adapts it as
`1 - score / 100`. -/
def rapidfuzz_levenshtein (nlev : List Byte → List Byte → ℚ)
    (a b : List Byte) : ℚ :=
  let score := nlev a b
  1 - score / 100

/-- Handle states reachable through the public operations: the null
cache, any result of `rapidfuzz_cached_init` (with either allocation
outcome), and anything `rapidfuzz_cached_deinit` produces from them. -/
inductive Reachable : RapidFuzzCachedRatio → Prop
  | null : Reachable rapidfuzz_cached_null
  | init (allocOk : Bool) (str : List Byte) :
      Reachable (rapidfuzz_cached_init allocOk str)
  | deinit {c : RapidFuzzCachedRatio} :
      Reachable c → Reachable (rapidfuzz_cached_deinit c)

/-- Coupling invariant of the three fields of the struct. -/
def HandleInv (c : RapidFuzzCachedRatio) : Prop :=
  (c.buffer = none ↔ c.block = none) ∧ (c.buffer = none → c.buflen = 0)

lemma handleInv_null : HandleInv rapidfuzz_cached_null := by
  constructor <;> simp [rapidfuzz_cached_null]

lemma handleInv_init (allocOk : Bool) (str : List Byte) :
    HandleInv (rapidfuzz_cached_init allocOk str) := by
  cases allocOk <;>
    simp [rapidfuzz_cached_init, rapidfuzz_cached_null, HandleInv]

lemma handleInv_deinit {c : RapidFuzzCachedRatio} (h : HandleInv c) :
    HandleInv (rapidfuzz_cached_deinit c) := by
  obtain ⟨buf, len, blk⟩ := c
  obtain ⟨h1, h2⟩ := h
  cases buf <;> cases blk <;>
    simp_all [rapidfuzz_cached_deinit, HandleInv]

lemma reachable_handleInv {c : RapidFuzzCachedRatio} (h : Reachable c) :
    HandleInv c := by
  induction h with
  | null => exact handleInv_null
  | init allocOk str => exact handleInv_init allocOk str
  | deinit _ ih => exact handleInv_deinit ih

lemma deinit_eq_null_of_inv {c : RapidFuzzCachedRatio} (h : HandleInv c) :
    rapidfuzz_cached_deinit c = rapidfuzz_cached_null := by
  obtain ⟨buf, len, blk⟩ := c
  obtain ⟨h1, h2⟩ := h
  cases buf <;> cases blk <;>
    simp_all [rapidfuzz_cached_deinit, rapidfuzz_cached_null, HandleInv]

lemma strlen_of_null_free {r : List Byte} (hr : (0 : Byte) ∉ r) :
    strlen r = r.length := by
  induction r with
  | nil => rfl
  | cons b rest ih =>
      have hb : b ≠ 0 := fun h => hr (h ▸ List.mem_cons_self b rest)
      have hrest : (0 : Byte) ∉ rest := fun h => hr (List.mem_cons_of_mem b h)
      simp [strlen, hb, ih hrest]

lemma init_true_of_null_free {r : List Byte} (hr : (0 : Byte) ∉ r) :
    rapidfuzz_cached_init true r =
      { buffer := some (r ++ [0]), buflen := r.length, block := some r } := by
  simp [rapidfuzz_cached_init, strlen_of_null_free hr, List.take_length]

/-- Kind of a heap allocation made by the adapter: the `malloc`-ed string
buffer or the `new`-allocated `CachedRatio` block. -/
inductive AllocKind where
  | mallocBuf
  | newBlock
deriving DecidableEq, Repr

/-- Allocation-accounting heap: a counter of fresh identifiers, the list
of live allocations, and a flag set by any `free` of a non-live pointer
(double-free / invalid free). -/
structure Heap where
  nextId : Nat
  live : List (Nat × AllocKind)
  badFree : Bool
deriving DecidableEq, Repr

/-- The heap before any allocation. -/
def Heap.empty : Heap :=
  { nextId := 0, live := [], badFree := false }

/-- Allocate a fresh identifier of the given kind. -/
def Heap.alloc (h : Heap) (k : AllocKind) : Heap × Nat :=
  ({ nextId := h.nextId + 1, live := (h.nextId, k) :: h.live, badFree := h.badFree },
   h.nextId)

/-- Release an identifier: removes it from the live list, or records a
bad free when it is not live. -/
def Heap.release (h : Heap) (id : Nat) : Heap :=
  if h.live.any (fun p => p.1 = id) then
    { h with live := h.live.filter (fun p => p.1 ≠ id) }
  else
    { h with badFree := true }

/-- The `RapidFuzzCachedRatio` struct in the instrumented model: the two
pointers are allocation identifiers (or NULL). -/
structure CachedMem where
  buffer : Option Nat
  buflen : Nat
  block : Option Nat
deriving DecidableEq, Repr

/-- `rapidfuzz_cached_init` in the instrumented model.  On `malloc`
failure nothing was allocated and the null cache is returned; on success
the buffer is malloc-ed and then the `CachedRatio` block is allocated
with `new`. -/
def cached_init_mem (h : Heap) (allocOk : Bool) (str : List Byte) :
    Heap × CachedMem :=
  if allocOk then
    let a1 := h.alloc AllocKind.mallocBuf
    let a2 := a1.1.alloc AllocKind.newBlock
    (a2.1, { buffer := some a1.2, buflen := strlen str, block := some a2.2 })
  else
    (h, { buffer := none, buflen := 0, block := none })

/-- `rapidfuzz_cached_deinit` in the instrumented model.  A non-NULL
block gets an explicit destructor call, `block->~CachedRatio()`, which
ends the object's lifetime but does not release the storage obtained by
`new` (only `operator delete` would), so the heap is unchanged there;
then a non-NULL buffer is `free`-d. -/
def cached_deinit_mem (h : Heap) (c : CachedMem) : Heap × CachedMem :=
  let s1 :=
    match c.block with
    | some _ => (h, { c with block := none })
    | none => (h, c)
  match s1.2.buffer with
  | some id => (s1.1.release id, { s1.2 with buffer := none, buflen := 0 })
  | none => s1

/-- One full lifecycle in the instrumented model: successful
`rapidfuzz_cached_init` followed by `rapidfuzz_cached_deinit`
(intervening `rapidfuzz_cached_ratio` calls do not touch the heap). -/
def initDeinitCycle (h : Heap) (str : List Byte) : Heap :=
  let r := cached_init_mem h true str
  (cached_deinit_mem r.1 r.2).1

/-- Simple concrete similarity collaborator used to instantiate the
abstract `ratio` / `nlev` parameters in witnesses: 100 on identical
inputs, 0 otherwise.  It satisfies every property the spec assumes of
the external collaborator. -/
def trivSim : List Byte → List Byte → ℚ :=
  fun a b => if a = b then 100 else 0

/-- C1: for every handle in the empty state (buffer and precomputed
block both absent) and every candidate byte sequence,
`rapidfuzz_cached_ratio` returns exactly 1. -/
theorem cached_ratio_empty_default (ratio : List Byte → List Byte → ℚ)
    (c : RapidFuzzCachedRatio) (candidate : List Byte)
    (hbuf : c.buffer = none) (hblk : c.block = none) :
    rapidfuzz_cached_ratio ratio c candidate = 1 := by
  simp [rapidfuzz_cached_ratio, hbuf, hblk]

/-- Witness for C1 at the null handle and a concrete candidate. -/
theorem cached_ratio_empty_default_witness :
    rapidfuzz_cached_ratio trivSim rapidfuzz_cached_null [107] = 1 :=
  cached_ratio_empty_default trivSim rapidfuzz_cached_null [107] rfl rfl

/-- C2: on every reachable handle, `rapidfuzz_cached_deinit` yields the
all-absent null cache (buffer NULL, block NULL, buflen 0), and running
it again on the result yields the null cache again (idempotence). -/
theorem cached_deinit_idempotent_empty (c : RapidFuzzCachedRatio)
    (h : Reachable c) :
    rapidfuzz_cached_deinit c = rapidfuzz_cached_null ∧
      rapidfuzz_cached_deinit (rapidfuzz_cached_deinit c) =
        rapidfuzz_cached_null := by
  have h1 := deinit_eq_null_of_inv (reachable_handleInv h)
  refine ⟨h1, ?_⟩
  rw [h1]
  exact deinit_eq_null_of_inv handleInv_null

/-- Witness for C2 at a handle freshly created from the byte string
`"k"`. -/
theorem cached_deinit_idempotent_empty_witness :
    rapidfuzz_cached_deinit (rapidfuzz_cached_init true [107]) =
        rapidfuzz_cached_null ∧
      rapidfuzz_cached_deinit
          (rapidfuzz_cached_deinit (rapidfuzz_cached_init true [107])) =
        rapidfuzz_cached_null :=
  cached_deinit_idempotent_empty _ (Reachable.init true [107])

/-- C3: after one successful `rapidfuzz_cached_init` / `cached_deinit`
cycle from the empty heap, the `new`-allocated `CachedRatio` block is
still live — `cached_deinit` only runs the destructor and never releases
the block's storage — so the cycle leaks one allocation (while producing
no bad free). -/
theorem cached_cycle_leaks_block :
    (initDeinitCycle Heap.empty [97]).live = [(1, AllocKind.newBlock)] ∧
      (initDeinitCycle Heap.empty [97]).badFree = false :=
  ⟨rfl, rfl⟩

/-- C4: a ready handle created from a NUL-free reference `r` scores any
candidate as `1 - ratio r candidate / 100`; when the collaborator's
percentage lies in `[0, 100]` the result lies in `[0, 1]`, and when the
collaborator gives 100 on identical inputs, scoring `r` itself gives
0. -/
theorem cached_ratio_ready_adapts (ratio : List Byte → List Byte → ℚ)
    (r candidate : List Byte) (hr : (0 : Byte) ∉ r)
    (h0 : 0 ≤ ratio r candidate) (h100 : ratio r candidate ≤ 100)
    (hrefl : ratio r r = 100) :
    rapidfuzz_cached_ratio ratio (rapidfuzz_cached_init true r) candidate
        = 1 - ratio r candidate / 100 ∧
      0 ≤ rapidfuzz_cached_ratio ratio (rapidfuzz_cached_init true r) candidate ∧
      rapidfuzz_cached_ratio ratio (rapidfuzz_cached_init true r) candidate ≤ 1 ∧
      rapidfuzz_cached_ratio ratio (rapidfuzz_cached_init true r) r = 0 := by
  rw [init_true_of_null_free hr]
  refine ⟨rfl, ?_, ?_, ?_⟩
  · simp only [rapidfuzz_cached_ratio]
    linarith
  · simp only [rapidfuzz_cached_ratio]
    linarith
  · simp [rapidfuzz_cached_ratio, hrefl]

/-- Witness for C4 with the concrete collaborator `trivSim`, reference
`"k"` and candidate `"\t"`. -/
theorem cached_ratio_ready_adapts_witness :
    rapidfuzz_cached_ratio trivSim (rapidfuzz_cached_init true [107]) [9]
        = 1 - trivSim [107] [9] / 100 ∧
      0 ≤ rapidfuzz_cached_ratio trivSim (rapidfuzz_cached_init true [107]) [9] ∧
      rapidfuzz_cached_ratio trivSim (rapidfuzz_cached_init true [107]) [9] ≤ 1 ∧
      rapidfuzz_cached_ratio trivSim (rapidfuzz_cached_init true [107]) [107] = 0 :=
  cached_ratio_ready_adapts trivSim [107] [9] (by decide)
    (by norm_num [trivSim]) (by norm_num [trivSim]) (by norm_num [trivSim])

/-- C5: when the buffer `malloc` fails, `rapidfuzz_cached_init` returns
the all-absent null cache, the heap is untouched (nothing allocated, so
nothing leaked), and this is the only failure path: with the allocation
succeeding, the returned handle always has both pointers non-NULL. -/
theorem cached_init_alloc_failure (str : List Byte) (h : Heap) :
    rapidfuzz_cached_init false str = rapidfuzz_cached_null ∧
      cached_init_mem h false str =
        (h, { buffer := none, buflen := 0, block := none }) ∧
      (rapidfuzz_cached_init true str).buffer ≠ none ∧
      (rapidfuzz_cached_init true str).block ≠ none := by
  refine ⟨rfl, rfl, ?_, ?_⟩ <;> simp [rapidfuzz_cached_init]

/-- C6: for a NUL-free reference `r`, successful `rapidfuzz_cached_init`
stores a NUL-terminated copy of `r` in the buffer, sets `buflen` to the
length the caller's NUL-terminated representation determines (the bytes
before the terminator, i.e. `r.length`), and builds the block from the
view over the first `buflen` bytes of that copied buffer. -/
theorem cached_init_copies_reference (r : List Byte) (hr : (0 : Byte) ∉ r) :
    (rapidfuzz_cached_init true r).buffer = some (r ++ [0]) ∧
      (rapidfuzz_cached_init true r).buflen = r.length ∧
      (rapidfuzz_cached_init true r).block =
        some ((r ++ [0]).take (rapidfuzz_cached_init true r).buflen) := by
  rw [init_true_of_null_free hr]
  refine ⟨rfl, rfl, ?_⟩
  simp

/-- Witness for C6 at the reference `"hi"`. -/
theorem cached_init_copies_reference_witness :
    (rapidfuzz_cached_init true [104, 105]).buffer = some [104, 105, 0] ∧
      (rapidfuzz_cached_init true [104, 105]).buflen = 2 ∧
      (rapidfuzz_cached_init true [104, 105]).block =
        some (([104, 105, 0] : List Byte).take
          (rapidfuzz_cached_init true [104, 105]).buflen) :=
  cached_init_copies_reference [104, 105] (by decide)

/-- C7: `rapidfuzz_levenshtein` returns `1 - nlev a b / 100` for the
collaborator's percentage; with the collaborator giving 100 on two empty
strings and 0 on empty versus non-empty (the spec's stated convention),
the adapter gives 0 on two empties and exactly 1 — strictly positive and
at most 1 — on empty versus non-empty. -/
theorem levenshtein_adapts (nlev : List Byte → List Byte → ℚ)
    (a b c : List Byte) (hc : c ≠ [])
    (hee : nlev [] [] = 100) (hec : nlev [] c = 0) :
    rapidfuzz_levenshtein nlev a b = 1 - nlev a b / 100 ∧
      rapidfuzz_levenshtein nlev [] [] = 0 ∧
      rapidfuzz_levenshtein nlev [] c = 1 ∧
      0 < rapidfuzz_levenshtein nlev [] c ∧
      rapidfuzz_levenshtein nlev [] c ≤ 1 := by
  refine ⟨rfl, ?_, ?_, ?_, ?_⟩ <;>
    simp [rapidfuzz_levenshtein, hee, hec]

/-- Witness for C7 with the concrete collaborator `trivSim` and the
non-empty candidate `"a"`. -/
theorem levenshtein_adapts_witness :
    rapidfuzz_levenshtein trivSim [] [97] = 1 - trivSim [] [97] / 100 ∧
      rapidfuzz_levenshtein trivSim [] [] = 0 ∧
      rapidfuzz_levenshtein trivSim [] [97] = 1 ∧
      0 < rapidfuzz_levenshtein trivSim [] [97] ∧
      rapidfuzz_levenshtein trivSim [] [97] ≤ 1 :=
  levenshtein_adapts trivSim [] [97] [97] (by decide)
    (by norm_num [trivSim]) (by norm_num [trivSim])

/-- C8: under the collaborator properties the spec assumes (100 on a
string against itself, symmetry, percentages in `[0, 100]`),
`rapidfuzz_levenshtein` gives 0 on `(s, s)`, is symmetric, and its
results lie in `[0, 1]`. -/
theorem levenshtein_metric_props (nlev : List Byte → List Byte → ℚ)
    (a b s : List Byte) (hrefl : nlev s s = 100)
    (hsymm : nlev a b = nlev b a)
    (h0 : 0 ≤ nlev a b) (h100 : nlev a b ≤ 100) :
    rapidfuzz_levenshtein nlev s s = 0 ∧
      rapidfuzz_levenshtein nlev a b = rapidfuzz_levenshtein nlev b a ∧
      0 ≤ rapidfuzz_levenshtein nlev a b ∧
      rapidfuzz_levenshtein nlev a b ≤ 1 := by
  refine ⟨?_, ?_, ?_, ?_⟩
  · simp [rapidfuzz_levenshtein, hrefl]
  · simp [rapidfuzz_levenshtein, hsymm]
  · simp only [rapidfuzz_levenshtein]
    linarith
  · simp only [rapidfuzz_levenshtein]
    linarith

/-- Witness for C8 with the concrete collaborator `trivSim` on the byte
strings `"a"`, `"b"` and `"s"`. -/
theorem levenshtein_metric_props_witness :
    rapidfuzz_levenshtein trivSim [115] [115] = 0 ∧
      rapidfuzz_levenshtein trivSim [97] [98] =
        rapidfuzz_levenshtein trivSim [98] [97] ∧
      0 ≤ rapidfuzz_levenshtein trivSim [97] [98] ∧
      rapidfuzz_levenshtein trivSim [97] [98] ≤ 1 :=
  levenshtein_metric_props trivSim [97] [98] [115]
    (by norm_num [trivSim]) (by norm_num [trivSim])
    (by norm_num [trivSim]) (by norm_num [trivSim])

/-- C9: every handle reachable through the public operations has its
three fields coupled: the buffer is NULL exactly when the block is NULL,
and a NULL buffer forces `buflen = 0` — only the all-present and the
all-absent states occur, never a mixed one. -/
theorem reachable_field_coupling (c : RapidFuzzCachedRatio)
    (h : Reachable c) :
    (c.buffer = none ↔ c.block = none) ∧
      (c.buffer = none → c.buflen = 0) :=
  reachable_handleInv h

/-- Witness for C9 at the null handle. -/
theorem reachable_field_coupling_witness :
    (rapidfuzz_cached_null.buffer = none ↔ rapidfuzz_cached_null.block = none) ∧
      (rapidfuzz_cached_null.buffer = none → rapidfuzz_cached_null.buflen = 0) :=
  reachable_field_coupling rapidfuzz_cached_null Reachable.null

/-- C10: creating a handle from the empty reference (allocation
succeeding) yields a ready handle: `buflen = 0`, the buffer holds just
the terminator, the block was built from the empty view, the handle
differs from the null sentinel, and scoring goes through the
collaborator (`1 - ratio [] candidate / 100`) instead of the fixed
empty-handle default. -/
theorem cached_init_empty_reference (ratio : List Byte → List Byte → ℚ)
    (candidate : List Byte) :
    (rapidfuzz_cached_init true []).buflen = 0 ∧
      (rapidfuzz_cached_init true []).buffer = some [0] ∧
      (rapidfuzz_cached_init true []).block = some [] ∧
      rapidfuzz_cached_init true [] ≠ rapidfuzz_cached_null ∧
      rapidfuzz_cached_ratio ratio (rapidfuzz_cached_init true []) candidate
        = 1 - ratio [] candidate / 100 := by
  refine ⟨rfl, rfl, rfl, ?_, rfl⟩
  simp [rapidfuzz_cached_init, rapidfuzz_cached_null, strlen]

end RapidFuzz
